import Mathlib

/-!
Verification of the GrokSTEM client against its specification.

The repository ships two iterations of the chat page in
frontend/src/pages/ChatPage.tsx, separated by a document marker: the first
iteration (here namespace V1) keeps an EnhancedMessage list, a loading flag
and a tracked assistant message id; the second iteration (here namespace V2)
keeps a HistoryMessage list, a thinking phase and a sidebar record, with the
chunk folding done by processWebSocketChunk.  Both are embedded below as
pure state-transition functions, together with the ChatInput send guard, the
ProgressStepper status computation and the ThemeToggle cycle.
-/

namespace GrokStem

/-- Sender of a chat message, matching the TS union of user and assistant. -/
inductive Role
  | user
  | assistant
deriving DecidableEq

/-- One reasoning step as defined in interfaces.ts: an id and a title. -/
structure ReasoningStep where
  id : String
  title : String
deriving DecidableEq

/-- Plotly payload from interfaces.ts.  The data traces and the layout are
untyped JSON in the source (any[] and object); the claims never inspect
them, so they are carried as opaque strings. -/
structure PlotlyData where
  data : List String
  layout : String
deriving DecidableEq

/-- Truthiness of an optional JS string: undefined, null and the empty
string are falsy. -/
def strTruthy : Option String → Bool
  | some s => s ≠ ""
  | none => false

/-- The JS expression o or-else d on an optional string: the default is
taken when o is undefined, null or empty. -/
def strOrElse (o : Option String) (d : String) : String :=
  match o with
  | some s => if s = "" then d else s
  | none => d

/-- The JS expression o or-else null on an optional string: an empty string
collapses to null. -/
def strOrNull (o : Option String) : Option String :=
  if strTruthy o then o else none

/-- Template-literal interpolation of an optional string: undefined prints
as the word undefined. -/
def tmplStr (o : Option String) : String :=
  o.getD "undefined"

/-- Update the first element of a list satisfying p by f, as the JS pattern
findIndex followed by an index assignment does; a list without a match is
returned unchanged. -/
def listUpdFirst (p : α → Bool) (f : α → α) : List α → List α
  | [] => []
  | x :: xs => if p x then f x :: xs else x :: listUpdFirst p f xs

/-- Concatenation of a list of strings in order. -/
def concatAll : List String → String
  | [] => ""
  | c :: cs => c ++ concatAll cs

/-- Drop leading whitespace characters from a character list. -/
def trimLeftChars : List Char → List Char
  | [] => []
  | ch :: cs => if ch.isWhitespace then trimLeftChars cs else ch :: cs

/-- The JS String trim: drop leading and trailing whitespace.  It is
modelled structurally over the character list so that it evaluates on
concrete inputs. -/
def jsTrim (s : String) : String :=
  String.mk ((trimLeftChars (trimLeftChars s.data).reverse).reverse)

namespace V1

/-- A chat message of the first page iteration (interfaces.ts
EnhancedMessage): id, role, and optional text, plot and steps fields. -/
structure EnhancedMessage where
  id : String
  role : Role
  text_content : Option String := none
  plotly_json : Option PlotlyData := none
  steps : Option (List ReasoningStep) := none
deriving DecidableEq

/-- An incoming chunk as parsed by the first iteration: a kind tag, the id
of the stream it belongs to, and optional payload fields. -/
structure WebSocketMessage where
  type : String
  id : String
  content : Option String := none
  plotly_json : Option PlotlyData := none
  steps : Option (List ReasoningStep) := none
deriving DecidableEq

/-- The React state of the first ChatPage iteration together with the refs
its handlers read and write: the message list, the input box, the loading
and connection flags, the banner error, the tracked assistant message id
and whether the socket ref exists and is open. -/
structure ClientState where
  messages : List EnhancedMessage
  input : String
  isLoading : Bool
  isConnected : Bool
  currentError : Option String
  currentAssistantMessageId : Option String
  wsOpen : Bool
deriving DecidableEq

/-- External actions a handler can perform: sending a frame on the socket
or scheduling a reconnection timer.  Each embedded handler returns the
exact list of such actions its body performs. -/
inductive Effect
  | send (text : String)
  | scheduleReconnect (delayMs : Nat)
deriving DecidableEq

/-- A browser close event, reduced to the fields the handler reads. -/
structure CloseEvent where
  wasClean : Bool
  code : Nat
  reason : String
deriving DecidableEq

/-- The placeholder assistant message appended when the first chunk of a
new stream arrives. -/
def placeholder (id : String) : EnhancedMessage :=
  { id := id, role := Role.assistant, text_content := some "" }

/-- The predicate of the findIndex calls: the message with a given id. -/
def msgIdIs (i : String) : EnhancedMessage → Bool :=
  fun msg => decide (msg.id = i)

/-- The onmessage handler of the first ChatPage iteration applied to one
parsed chunk.  It mirrors the source step by step: record the id of the
first content chunk of a new stream and append a placeholder, drop chunks
whose id does not match the tracked stream (except kind error), then fold
the chunk into the message list, the loading flag, the tracked id and the
error banner. -/
def onmessage (s : ClientState) (m : WebSocketMessage) : ClientState :=
  -- if this is the first chunk for a new assistant response, record its id
  let s :=
    if s.currentAssistantMessageId = none ∧ m.id ≠ "" ∧
        m.type ≠ "end" ∧ m.type ≠ "error" then
      { s with
        currentAssistantMessageId := some m.id,
        messages :=
          if s.messages.any (msgIdIs m.id) then s.messages
          else s.messages ++ [placeholder m.id] }
    else s
  -- ignore messages not matching the current stream id (unless error)
  if m.type ≠ "error" ∧ some m.id ≠ s.currentAssistantMessageId then s
  else if s.messages.any (msgIdIs m.id) = false ∧ m.type ≠ "error" then
    -- message with this id not found: create it for content chunks only
    if m.type = "text" then
      { s with messages := s.messages ++
          [{ id := m.id, role := Role.assistant,
             text_content := some (strOrElse m.content "") }] }
    else if m.type = "plot" then
      { s with messages := s.messages ++
          [{ id := m.id, role := Role.assistant, plotly_json := m.plotly_json }] }
    else if m.type = "steps" then
      { s with messages := s.messages ++
          [{ id := m.id, role := Role.assistant, steps := m.steps }] }
    else s
  else if m.type = "text" then
    { s with messages := (listUpdFirst (msgIdIs m.id)
        (fun msg =>
          { msg with
            role := Role.assistant,
            text_content :=
              some (strOrElse msg.text_content "" ++ strOrElse m.content "") })
        s.messages) }
  else if m.type = "plot" then
    if m.plotly_json.isSome then
      { s with messages := (listUpdFirst (msgIdIs m.id)
          (fun msg =>
            { msg with
              role := Role.assistant,
              plotly_json := m.plotly_json })
          s.messages) }
    else s
  else if m.type = "steps" then
    if m.steps.isSome then
      { s with messages := (listUpdFirst (msgIdIs m.id)
          (fun msg => { msg with role := Role.assistant, steps := m.steps })
          s.messages) }
    else s
  else if m.type = "end" then
    { s with isLoading := false, currentAssistantMessageId := none }
  else if m.type = "error" then
    { s with
      currentError := some ("Backend Error: " ++ tmplStr m.content),
      isLoading := false,
      currentAssistantMessageId := none }
  else s

/-- A user message as built by handleSubmit; the generated uuid is passed
in as fresh. -/
def userMessage (fresh text : String) : EnhancedMessage :=
  { id := fresh, role := Role.user, text_content := some text }

/-- The submit handler of the first iteration: trims the text, rejects the
empty string, rejects when disconnected (setting the banner), rejects while
loading, and otherwise appends the user message, raises the loading flag,
clears the input and the banner and sends the text. -/
def handleSubmit (s : ClientState) (messageToSend : Option String)
    (fresh : String) : ClientState × List Effect :=
  let text := jsTrim (messageToSend.getD s.input)
  if text = "" then (s, [])
  else if ¬ (s.isConnected = true ∧ s.wsOpen = true) then
    ({ s with currentError := some "Not connected. Please wait or refresh." }, [])
  else if s.isLoading = true then (s, [])
  else
    ({ s with
        messages := s.messages ++ [userMessage fresh text],
        isLoading := true,
        input := "",
        currentError := none },
     [Effect.send text])

/-- The onclose handler: clears the connection flag, sets the banner on a
not-clean close, and clears the loading flag and tracked id only when an
assistant message id is currently tracked.  The body schedules no
reconnection, so the effect list is empty. -/
def onclose (s : ClientState) (event : CloseEvent) : ClientState × List Effect :=
  let s := { s with isConnected := false }
  let s :=
    if event.wasClean = false then
      { s with currentError := some "Connection lost. Please try refreshing." }
    else s
  let s :=
    if s.currentAssistantMessageId.isSome then
      { s with isLoading := false, currentAssistantMessageId := none }
    else s
  (s, [])

/-- The onerror handler: sets the banner, clears the connection and loading
flags and the tracked id; it schedules no reconnection. -/
def onerror (s : ClientState) : ClientState × List Effect :=
  ({ s with
      currentError := some "Connection error. Please check the console or refresh.",
      isConnected := false,
      isLoading := false,
      currentAssistantMessageId := none }, [])

/-- A text chunk for stream a carrying the fragment c. -/
def textChunk (a c : String) : WebSocketMessage :=
  { type := "text", id := a, content := some c }

/-- The terminal end chunk for stream a. -/
def endChunk (a : String) : WebSocketMessage :=
  { type := "end", id := a }

/-- The update applied to the tracked message by a text chunk carrying c. -/
def textUpd (c : String) (msg : EnhancedMessage) : EnhancedMessage :=
  { msg with
    role := Role.assistant,
    text_content := some (strOrElse msg.text_content "" ++ c) }

end V1

namespace ChatInput

/-- The send guard of ChatInput.handleSend: nothing is submitted when the
trimmed input is empty, a response is loading or the socket is
disconnected; otherwise the untrimmed input is passed on to onSubmit. -/
def handleSend (input : String) (isLoading isConnected : Bool) : Option String :=
  if jsTrim input = "" ∨ isLoading = true ∨ isConnected = false then none
  else some input

end ChatInput

namespace V2

/-- A chat history message of the second page iteration: optional text,
steps, plot and image fields, an error mark with its content, and a
completion flag. -/
structure HistoryMessage where
  id : String
  role : Role
  text : Option String := none
  steps : Option (List ReasoningStep) := none
  plotJson : Option PlotlyData := none
  imageUrl : Option String := none
  imagePrompt : Option String := none
  isError : Bool := false
  errorContent : Option String := none
  isComplete : Bool := false
deriving DecidableEq

/-- An incoming chunk of the second iteration, with the image and progress
payload fields. -/
structure WebSocketChunk where
  type : String
  id : String
  chat_id : String := ""
  content : Option String := none
  steps : Option (List ReasoningStep) := none
  plotly_json : Option PlotlyData := none
  image_url : Option String := none
  attempt : Option Nat := none
  max_attempts : Option Nat := none
  phase : Option String := none
deriving DecidableEq

/-- The sidebar image lifecycle state. -/
inductive ImageState
  | idle
  | loading
  | retrying
  | success
  | error
deriving DecidableEq

/-- The sidebar record of the second iteration. -/
structure SidebarContentData where
  messageId : Option String
  steps : Option (List ReasoningStep)
  plotJson : Option PlotlyData
  imageUrl : Option String
  imageState : ImageState
  imageError : Option String
  imagePromptUsed : Option String
  imageRetryCount : Nat
deriving DecidableEq

/-- The cleared sidebar record. -/
def emptySidebar : SidebarContentData :=
  { messageId := none, steps := none, plotJson := none, imageUrl := none,
    imageState := ImageState.idle, imageError := none,
    imagePromptUsed := none, imageRetryCount := 0 }

/-- The page state of the second iteration: the history, the thinking
phase, the tracked assistant message ref and the sidebar record. -/
structure PageState where
  messageHistory : List HistoryMessage
  thinkingPhase : Option String
  currentAssistantMessageIdRef : Option String
  sidebarContent : SidebarContentData
deriving DecidableEq

/-- The fresh in-progress assistant message allocated for the first chunk
of an unknown id. -/
def newAssistantMessage (id : String) : HistoryMessage :=
  { id := id, role := Role.assistant, text := none, isComplete := false,
    steps := none, plotJson := none, imageUrl := none, imagePrompt := none,
    isError := false, errorContent := none }

/-- The predicate of the history lookups: the assistant message with a
given id. -/
def histIdIs (i : String) : HistoryMessage → Bool :=
  fun msg => decide (msg.id = i ∧ msg.role = Role.assistant)

/-- updateSidebarFromMessage: reflect an assistant message in the sidebar,
preserving the image state when staying on the same message; a missing or
user message clears the sidebar. -/
def updateSidebarFromMessage (s : PageState) (message : Option HistoryMessage) :
    PageState :=
  match message with
  | some msg =>
    if msg.role = Role.assistant then
      let prev := s.sidebarContent
      let isSameMessage := prev.messageId = some msg.id
      let newImageState :=
        if strTruthy msg.imageUrl then ImageState.success
        else if isSameMessage then prev.imageState else ImageState.idle
      let newImageError :=
        if strTruthy msg.imageUrl then none
        else if isSameMessage then prev.imageError else none
      let sb : SidebarContentData :=
        { messageId := some msg.id,
          steps := msg.steps,
          plotJson := msg.plotJson,
          imageUrl := strOrNull msg.imageUrl,
          imagePromptUsed := strOrNull msg.imagePrompt,
          imageState := newImageState,
          imageError := newImageError,
          imageRetryCount :=
            if isSameMessage ∧ (newImageState = ImageState.retrying ∨
                newImageState = ImageState.error) then
              prev.imageRetryCount
            else 0 }
      { s with sidebarContent := sb }
    else { s with sidebarContent := emptySidebar }
  | none => { s with sidebarContent := emptySidebar }

/-- processWebSocketChunk of the second iteration: fold one chunk into the
history, the thinking phase, the tracked ref and the sidebar, mirroring
the source switch case by case.  There is no stale-id guard here: a
content chunk whose id matches no assistant message allocates a new
history entry and retargets the ref. -/
def processWebSocketChunk (s : PageState) (chunk : WebSocketChunk) : PageState :=
  let messageId := chunk.id
  let isFound := s.messageHistory.any (histIdIs messageId)
  if isFound = false ∧ (chunk.type = "init" ∨ chunk.type = "end") then
    -- ignore init and end while no message with this id exists
    s
  else
    let isNew := isFound = false
    let target :=
      if isNew then newAssistantMessage messageId
      else (s.messageHistory.find? (histIdIs messageId)).getD
        (newAssistantMessage messageId)
    -- a new message is tracked before the chunk kind is examined
    let s1 :=
      if isNew then { s with currentAssistantMessageIdRef := some messageId }
      else s
    if chunk.type = "progress" then
      { s1 with thinkingPhase := strOrNull chunk.phase }
    else if chunk.type = "image_retry" then
      let sb :=
        if s1.sidebarContent.messageId = some messageId then
          { s1.sidebarContent with
            imageState := ImageState.retrying,
            imageRetryCount :=
              chunk.attempt.getD (s1.sidebarContent.imageRetryCount + 1) }
        else s1.sidebarContent
      { s1 with sidebarContent := sb }
    else if chunk.type = "image_error" then
      let sb :=
        if s1.sidebarContent.messageId = some messageId then
          { s1.sidebarContent with
            imageState := ImageState.error,
            imageError := some (strOrElse chunk.content "Image generation failed.") }
        else s1.sidebarContent
      { s1 with sidebarContent := sb }
    else if chunk.type = "init" then s1
    else if chunk.type = "text" ∨ chunk.type = "steps" ∨ chunk.type = "plot" ∨
        chunk.type = "image" ∨ chunk.type = "error" ∨ chunk.type = "end" then
      let target2 :=
        if chunk.type = "text" then
          { target with
            text := some (strOrElse target.text "" ++ strOrElse chunk.content "") }
        else if chunk.type = "steps" then
          { target with steps := chunk.steps }
        else if chunk.type = "plot" then
          { target with plotJson := chunk.plotly_json }
        else if chunk.type = "image" then
          { target with imageUrl := strOrNull chunk.image_url }
        else if chunk.type = "error" then
          { target with
            isError := true,
            errorContent := some (strOrElse chunk.content "An error occurred."),
            isComplete := true }
        else
          { target with isComplete := true }
      let s2 :=
        if chunk.type = "image" then
          let sb :=
            if s1.sidebarContent.messageId = some messageId then
              { s1.sidebarContent with
                imageState := ImageState.success,
                imageUrl := target2.imageUrl,
                imageError := none }
            else s1.sidebarContent
          { s1 with sidebarContent := sb }
        else if chunk.type = "error" then
          let sA :=
            { s1 with thinkingPhase := none, currentAssistantMessageIdRef := none }
          let sb :=
            if sA.sidebarContent.messageId = some messageId then
              { sA.sidebarContent with imageState := ImageState.idle }
            else sA.sidebarContent
          { sA with sidebarContent := sb }
        else if chunk.type = "end" then
          let sA :=
            { s1 with thinkingPhase := none, currentAssistantMessageIdRef := none }
          if (sA.messageHistory.getLast?).map (fun msg => msg.id) = some target2.id then
            updateSidebarFromMessage sA (some target2)
          else sA
        else s1
      let hist :=
        if isNew then s2.messageHistory ++ [target2]
        else listUpdFirst (histIdIs messageId) (fun _ => target2) s2.messageHistory
      let s3 := { s2 with messageHistory := hist }
      -- keep the sidebar in sync with the tracked in-progress message
      if s3.currentAssistantMessageIdRef = some target2.id ∧
          chunk.type ≠ "end" ∧ chunk.type ≠ "error" then
        updateSidebarFromMessage s3 (some target2)
      else s3
    else s1

end V2

namespace ProgressStepper

/-- The phase prop of the ProgressStepper component. -/
inductive Phase
  | reasoning
  | steps
  | plotting
  | done
deriving DecidableEq

/-- The string key of a phase value. -/
def phaseKeyStr : Phase → String
  | Phase.reasoning => "reasoning"
  | Phase.steps => "steps"
  | Phase.plotting => "plotting"
  | Phase.done => "done"

/-- The ordered phase keys of the stepper. -/
def order : List String := ["reasoning", "steps", "plotting"]

/-- JS Array indexOf on strings: the first index, or minus one if absent. -/
def indexOfStr (l : List String) (x : String) : Int :=
  match l.findIdx? (fun y => decide (y = x)) with
  | some i => (i : Int)
  | none => -1

/-- The getStatus computation of ProgressStepper: complete before the
current phase, active at it, upcoming after it; a done phase is past the
end of the list. -/
def getStatus (currentPhase : Phase) (phaseKey : String) : String :=
  let currentIndex : Int :=
    if currentPhase = Phase.done then (order.length : Int)
    else indexOfStr order (phaseKeyStr currentPhase)
  let phaseIndex : Int := indexOfStr order phaseKey
  if phaseIndex < currentIndex then "complete"
  else if phaseIndex = currentIndex then "active"
  else "upcoming"

end ProgressStepper

namespace ThemeToggle

/-- The theme union of ThemeContext. -/
inductive Theme
  | light
  | dark
  | system
deriving DecidableEq

/-- The toggle of ThemeToggle: light to dark, dark to system, anything
else to light. -/
def toggle : Theme → Theme
  | Theme.light => Theme.dark
  | Theme.dark => Theme.system
  | _ => Theme.light

end ThemeToggle

namespace V1

/-- A concrete first-iteration state tracking assistant message A while a
partial answer has accumulated. -/
def sTrackedA : ClientState :=
  { messages :=
      [{ id := "u1", role := Role.user, text_content := some "question" },
       { id := "A", role := Role.assistant, text_content := some "partial" }],
    input := "",
    isLoading := true,
    isConnected := true,
    currentError := none,
    currentAssistantMessageId := some "A",
    wsOpen := true }

/-- A concrete state that is loading with no tracked id yet: the state
right after a submission whose first response chunk has not arrived. -/
def sLoadingUntracked : ClientState :=
  { messages := [{ id := "u1", role := Role.user, text_content := some "question" }],
    input := "",
    isLoading := true,
    isConnected := true,
    currentError := none,
    currentAssistantMessageId := none,
    wsOpen := true }

/-- A not-clean close event, as fired on an abnormal disconnect. -/
def evAbnormal : CloseEvent :=
  { wasClean := false, code := 1006, reason := "" }

/-- A backend error chunk for stream A. -/
def errChunkA : WebSocketMessage :=
  { type := "error", id := "A", content := some "boom" }

/-- A text chunk for the stale stream B. -/
def staleTextB : WebSocketMessage :=
  { type := "text", id := "B", content := some "stale" }

/-- A steps chunk for stream A with a single step. -/
def stepsChunkA : WebSocketMessage :=
  { type := "steps", id := "A",
    steps := some [{ id := "step-1", title := "Step 1: Apply power rule" }] }

end V1

namespace V2

/-- A concrete second-iteration state tracking assistant message A. -/
def sPageA : PageState :=
  { messageHistory :=
      [{ id := "u1", role := Role.user, text := some "question", isComplete := true },
       { newAssistantMessage "A" with text := some "partial" }],
    thinkingPhase := some "reasoning",
    currentAssistantMessageIdRef := some "A",
    sidebarContent := emptySidebar }

/-- A text chunk for the stale stream B. -/
def staleTextChunkB : WebSocketChunk :=
  { type := "text", id := "B", content := some "stale" }

/-- A backend error chunk for stream A. -/
def errorChunkA : WebSocketChunk :=
  { type := "error", id := "A", content := some "boom" }

end V2

@[simp]
lemma strOrElse_some_empty (c : String) : strOrElse (some c) "" = c := by
  by_cases h : c = "" <;> simp [strOrElse, h]

lemma any_of_find? {p : α → Bool} {l : List α} {x : α}
    (h : l.find? p = some x) : l.any p = true := by
  rw [List.any_eq_true]
  exact ⟨x, List.mem_of_find?_eq_some h, List.find?_some h⟩

lemma listUpdFirst_find? {p : α → Bool} {f : α → α} :
    ∀ {l : List α} {x : α}, l.find? p = some x → p (f x) = true →
      (listUpdFirst p f l).find? p = some (f x) := by
  intro l
  induction l with
  | nil => intro x h _; simp [List.find?] at h
  | cons y ys ih =>
    intro x h hp
    by_cases hy : p y = true
    · rw [List.find?_cons_of_pos _ hy] at h
      cases h
      simp [listUpdFirst, hy, List.find?_cons_of_pos _ hp]
    · rw [List.find?_cons_of_neg _ hy] at h
      simp [listUpdFirst, hy, List.find?_cons_of_neg _ hy]
      exact ih h hp

lemma listUpdFirst_filter_not {p : α → Bool} {f : α → α}
    (hpf : ∀ x, p x = true → p (f x) = true) :
    ∀ l : List α, (listUpdFirst p f l).filter (fun x => !p x) =
      l.filter (fun x => !p x) := by
  intro l
  induction l with
  | nil => simp [listUpdFirst]
  | cons y ys ih =>
    by_cases hy : p y = true
    · simp [listUpdFirst, hy, List.filter, hpf y hy]
    · simp [listUpdFirst, hy, List.filter, ih]

namespace V1

lemma onmessage_stale (s : ClientState) (m : WebSocketMessage) (a : String)
    (htrack : s.currentAssistantMessageId = some a)
    (hid : m.id ≠ a) (htype : m.type ≠ "error") :
    onmessage s m = s := by
  simp [onmessage, htrack, htype, hid]

lemma onmessage_error (s : ClientState) (m : WebSocketMessage)
    (htype : m.type = "error") :
    onmessage s m =
      { s with
        currentError := some ("Backend Error: " ++ tmplStr m.content),
        isLoading := false,
        currentAssistantMessageId := none } := by
  simp [onmessage, htype]

lemma onmessage_text_step (s : ClientState) (a c : String)
    (msg0 : EnhancedMessage)
    (htrack : s.currentAssistantMessageId = some a)
    (hfind : s.messages.find? (msgIdIs a) = some msg0) :
    onmessage s (textChunk a c) =
      { s with messages := listUpdFirst (msgIdIs a) (textUpd c) s.messages } := by
  simp [onmessage, textChunk, htrack, any_of_find? hfind]
  congr 1

lemma onmessage_end_step (s : ClientState) (a : String)
    (msg0 : EnhancedMessage)
    (htrack : s.currentAssistantMessageId = some a)
    (hfind : s.messages.find? (msgIdIs a) = some msg0) :
    onmessage s (endChunk a) =
      { s with isLoading := false, currentAssistantMessageId := none } := by
  simp [onmessage, endChunk, htrack, any_of_find? hfind]

lemma onmessage_steps_step (s : ClientState) (m : WebSocketMessage)
    (a : String) (msg0 : EnhancedMessage) (l : List ReasoningStep)
    (htrack : s.currentAssistantMessageId = some a)
    (hid : m.id = a) (htype : m.type = "steps") (hpay : m.steps = some l)
    (hfind : s.messages.find? (msgIdIs a) = some msg0) :
    onmessage s m =
      { s with messages := (listUpdFirst (msgIdIs a)
          (fun msg =>
            { msg with role := Role.assistant, steps := some l })
          s.messages) } := by
  simp [onmessage, htrack, hid, htype, hpay, any_of_find? hfind]

lemma onmessage_plot_step (s : ClientState) (m : WebSocketMessage)
    (a : String) (msg0 : EnhancedMessage) (pj : PlotlyData)
    (htrack : s.currentAssistantMessageId = some a)
    (hid : m.id = a) (htype : m.type = "plot") (hpay : m.plotly_json = some pj)
    (hfind : s.messages.find? (msgIdIs a) = some msg0) :
    onmessage s m =
      { s with messages := (listUpdFirst (msgIdIs a)
          (fun msg =>
            { msg with role := Role.assistant, plotly_json := some pj })
          s.messages) } := by
  simp [onmessage, htrack, hid, htype, hpay, any_of_find? hfind]

lemma onmessage_steps_missing (s : ClientState) (m : WebSocketMessage)
    (a : String) (msg0 : EnhancedMessage)
    (htrack : s.currentAssistantMessageId = some a)
    (hid : m.id = a) (htype : m.type = "steps") (hpay : m.steps = none)
    (hfind : s.messages.find? (msgIdIs a) = some msg0) :
    onmessage s m = s := by
  simp [onmessage, htrack, hid, htype, hpay, any_of_find? hfind]

lemma onmessage_plot_missing (s : ClientState) (m : WebSocketMessage)
    (a : String) (msg0 : EnhancedMessage)
    (htrack : s.currentAssistantMessageId = some a)
    (hid : m.id = a) (htype : m.type = "plot") (hpay : m.plotly_json = none)
    (hfind : s.messages.find? (msgIdIs a) = some msg0) :
    onmessage s m = s := by
  simp [onmessage, htrack, hid, htype, hpay, any_of_find? hfind]

end V1

namespace V2

lemma processWebSocketChunk_error (s : PageState) (c : WebSocketChunk)
    (msg0 : HistoryMessage)
    (htype : c.type = "error")
    (hfind : s.messageHistory.find? (histIdIs c.id) = some msg0) :
    processWebSocketChunk s c =
      { s with
        thinkingPhase := none,
        currentAssistantMessageIdRef := none,
        sidebarContent :=
          (if s.sidebarContent.messageId = some c.id then
            { s.sidebarContent with imageState := ImageState.idle }
          else s.sidebarContent),
        messageHistory := (listUpdFirst (histIdIs c.id)
          (fun _ =>
            { msg0 with
              isError := true,
              errorContent := some (strOrElse c.content "An error occurred."),
              isComplete := true })
          s.messageHistory) } := by
  simp [processWebSocketChunk, htype, any_of_find? hfind, hfind]

end V2

/-- C2: delivering a sequence of text chunks for the tracked assistant
message leaves its accumulated text equal to its previous text followed by
the concatenation of the chunk contents in delivery order. -/
theorem claim_C2_text_concatenation :
    ∀ (cs : List String) (s : V1.ClientState) (a : String)
      (msg0 : V1.EnhancedMessage),
      s.currentAssistantMessageId = some a →
      s.messages.find? (V1.msgIdIs a) = some msg0 →
      ((cs.foldl (fun st c => V1.onmessage st (V1.textChunk a c)) s).messages.find?
          (V1.msgIdIs a)).map (fun msg => strOrElse msg.text_content "") =
        some (strOrElse msg0.text_content "" ++ concatAll cs) := by
  intro cs
  induction cs with
  | nil =>
    intro s a msg0 htrack hfind
    simp [concatAll, hfind]
  | cons c cs ih =>
    intro s a msg0 htrack hfind
    have hp : V1.msgIdIs a (V1.textUpd c msg0) = true := by
      have h0 := List.find?_some hfind
      simp [V1.msgIdIs, V1.textUpd] at h0 ⊢
      exact h0
    rw [List.foldl_cons, V1.onmessage_text_step s a c msg0 htrack hfind]
    rw [ih { s with messages := listUpdFirst (V1.msgIdIs a) (V1.textUpd c) s.messages }
        a (V1.textUpd c msg0) htrack (listUpdFirst_find? hfind hp)]
    simp [V1.textUpd, concatAll, String.append_assoc]

/-- Witness for C2: two fragments delivered to the placeholder of stream A
accumulate to their concatenation. -/
theorem claim_C2_witness :
    ((["Hello, ", "world"].foldl
        (fun st c => V1.onmessage st (V1.textChunk "A" c)) V1.sTrackedA).messages.find?
        (V1.msgIdIs "A")).map (fun msg => strOrElse msg.text_content "") =
      some (strOrElse (some "partial") "" ++ concatAll ["Hello, ", "world"]) :=
  claim_C2_text_concatenation ["Hello, ", "world"] V1.sTrackedA "A"
    { id := "A", role := Role.assistant, text_content := some "partial" }
    (by decide) (by decide)

/-- C3: while the loading flag is set, handleSubmit appends no user
message, leaves the flag raised and sends nothing; once the end chunk of
the in-flight turn clears the flag and the tracked id, a nonempty
submission on an open connection is accepted, appending the user message,
raising the flag and sending the trimmed text; an error chunk likewise
clears the flag and the tracked id. -/
theorem claim_C3_single_active_turn :
    (∀ (s : V1.ClientState) (messageToSend : Option String) (fresh : String),
      s.isLoading = true →
      (V1.handleSubmit s messageToSend fresh).1.messages = s.messages ∧
      (V1.handleSubmit s messageToSend fresh).1.isLoading = true ∧
      (V1.handleSubmit s messageToSend fresh).2 = []) ∧
    (∀ (s : V1.ClientState) (a : String) (msg0 : V1.EnhancedMessage)
        (text fresh : String),
      s.currentAssistantMessageId = some a →
      s.messages.find? (V1.msgIdIs a) = some msg0 →
      s.isConnected = true → s.wsOpen = true → jsTrim text ≠ "" →
      (V1.onmessage s (V1.endChunk a)).isLoading = false ∧
      (V1.onmessage s (V1.endChunk a)).currentAssistantMessageId = none ∧
      V1.handleSubmit (V1.onmessage s (V1.endChunk a)) (some text) fresh =
        ({ V1.onmessage s (V1.endChunk a) with
            messages := s.messages ++ [V1.userMessage fresh (jsTrim text)],
            isLoading := true,
            input := "",
            currentError := none },
         [V1.Effect.send (jsTrim text)])) ∧
    (∀ (s : V1.ClientState) (m : V1.WebSocketMessage),
      m.type = "error" →
      (V1.onmessage s m).isLoading = false ∧
      (V1.onmessage s m).currentAssistantMessageId = none) := by
  refine ⟨?_, ?_, ?_⟩
  · intro s messageToSend fresh h
    by_cases h1 : jsTrim (messageToSend.getD s.input) = ""
    · simp [V1.handleSubmit, h1, h]
    · by_cases h2 : s.isConnected = true ∧ s.wsOpen = true
      · simp [V1.handleSubmit, h1, h2, h]
      · simp [V1.handleSubmit, h1, h2, h]
  · intro s a msg0 text fresh htrack hfind hconn hws htext
    rw [V1.onmessage_end_step s a msg0 htrack hfind]
    refine ⟨rfl, rfl, ?_⟩
    simp [V1.handleSubmit, htext, hconn, hws]
  · intro s m htype
    rw [V1.onmessage_error s m htype]
    exact ⟨rfl, rfl⟩

/-- Witness for C3: a submission during the turn of stream A is inert, the
end chunk frees the slot and the next submission is accepted. -/
theorem claim_C3_witness :
    ((V1.handleSubmit V1.sTrackedA (some "again") "u9").1.messages =
        V1.sTrackedA.messages ∧
      (V1.handleSubmit V1.sTrackedA (some "again") "u9").1.isLoading = true ∧
      (V1.handleSubmit V1.sTrackedA (some "again") "u9").2 = []) ∧
    ((V1.onmessage V1.sTrackedA (V1.endChunk "A")).isLoading = false ∧
      (V1.onmessage V1.sTrackedA (V1.endChunk "A")).currentAssistantMessageId = none ∧
      V1.handleSubmit (V1.onmessage V1.sTrackedA (V1.endChunk "A")) (some "next") "u2" =
        ({ V1.onmessage V1.sTrackedA (V1.endChunk "A") with
            messages := V1.sTrackedA.messages ++ [V1.userMessage "u2" (jsTrim "next")],
            isLoading := true,
            input := "",
            currentError := none },
         [V1.Effect.send (jsTrim "next")])) ∧
    ((V1.onmessage V1.sLoadingUntracked V1.errChunkA).isLoading = false ∧
      (V1.onmessage V1.sLoadingUntracked V1.errChunkA).currentAssistantMessageId = none) :=
  ⟨claim_C3_single_active_turn.1 V1.sTrackedA (some "again") "u9" rfl,
   claim_C3_single_active_turn.2.1 V1.sTrackedA "A"
     { id := "A", role := Role.assistant, text_content := some "partial" }
     "next" "u2" (by decide) (by decide) rfl rfl (by decide),
   claim_C3_single_active_turn.2.2 V1.sLoadingUntracked V1.errChunkA rfl⟩

/-- C6: an input whose trimmed form is empty is rejected before any turn
starts: handleSubmit returns the state unchanged with no effect, and the
ChatInput send guard likewise submits nothing. -/
theorem claim_C6_empty_input_rejected :
    (∀ (s : V1.ClientState) (messageToSend : Option String) (fresh : String),
      jsTrim (messageToSend.getD s.input) = "" →
      V1.handleSubmit s messageToSend fresh = (s, [])) ∧
    (∀ (input : String) (isLoading isConnected : Bool),
      jsTrim input = "" →
      ChatInput.handleSend input isLoading isConnected = none) := by
  constructor
  · intro s messageToSend fresh h
    simp [V1.handleSubmit, h]
  · intro input isLoading isConnected h
    simp [ChatInput.handleSend, h]

/-- Witness for C6 at a whitespace-only input. -/
theorem claim_C6_witness :
    V1.handleSubmit V1.sLoadingUntracked (some "   ") "u2" =
      (V1.sLoadingUntracked, []) ∧
    ChatInput.handleSend "   " false true = none :=
  ⟨claim_C6_empty_input_rejected.1 V1.sLoadingUntracked (some "   ") "u2" (by decide),
   claim_C6_empty_input_rejected.2 "   " false true (by decide)⟩

/-- C1 counterexample: in the second iteration, a text chunk for stream B
arriving while stream A is tracked is not discarded: processWebSocketChunk
changes the message history by allocating a new entry for B. -/
theorem claim_C1_counterexample :
    V2.sPageA.currentAssistantMessageIdRef = some "A" ∧
    V2.staleTextChunkB.id = "B" ∧
    V2.staleTextChunkB.type = "text" ∧
    (V2.processWebSocketChunk V2.sPageA V2.staleTextChunkB).messageHistory ≠
      V2.sPageA.messageHistory := by
  refine ⟨rfl, rfl, rfl, ?_⟩
  decide

/-- C1 amended: in the first iteration the onmessage handler discards any
chunk whose id differs from the tracked (non-null) assistant message id
without changing any state, unless its kind is error, which is processed
regardless of id, clearing the loading flag and the tracked id and
surfacing the error while leaving history untouched; the second
iteration has no such guard and a text chunk with an unknown id instead
allocates a new assistant history message. -/
theorem claim_C1_amended_stale_guard :
    (∀ (s : V1.ClientState) (m : V1.WebSocketMessage) (a : String),
      s.currentAssistantMessageId = some a → m.id ≠ a → m.type ≠ "error" →
      V1.onmessage s m = s) ∧
    (∀ (s : V1.ClientState) (m : V1.WebSocketMessage),
      m.type = "error" →
      V1.onmessage s m =
        { s with
          currentError := some ("Backend Error: " ++ tmplStr m.content),
          isLoading := false,
          currentAssistantMessageId := none }) ∧
    (∀ (s : V2.PageState) (c : V2.WebSocketChunk),
      s.messageHistory.any (V2.histIdIs c.id) = false → c.type = "text" →
      ∃ msg, (V2.processWebSocketChunk s c).messageHistory =
          s.messageHistory ++ [msg] ∧ msg.id = c.id ∧
          msg.role = Role.assistant) := by
  refine ⟨?_, ?_, ?_⟩
  · intro s m a htrack hid htype
    exact V1.onmessage_stale s m a htrack hid htype
  · intro s m htype
    exact V1.onmessage_error s m htype
  · intro s c hany htype
    refine ⟨{ V2.newAssistantMessage c.id with
        text := some (strOrElse c.content "") }, ?_, rfl, rfl⟩
    simp [V2.processWebSocketChunk, V2.updateSidebarFromMessage,
      V2.newAssistantMessage, hany, htype, strOrElse, String.empty_append]

/-- Witness for C1 amended: a stale text chunk is dropped, an error chunk
is processed from an untracked state, and the second iteration allocates a
message for the unknown stream B. -/
theorem claim_C1_witness :
    V1.onmessage V1.sTrackedA V1.staleTextB = V1.sTrackedA ∧
    V1.onmessage V1.sLoadingUntracked V1.errChunkA =
      { V1.sLoadingUntracked with
        currentError := some ("Backend Error: " ++ tmplStr V1.errChunkA.content),
        isLoading := false,
        currentAssistantMessageId := none } ∧
    ∃ msg, (V2.processWebSocketChunk V2.sPageA V2.staleTextChunkB).messageHistory =
        V2.sPageA.messageHistory ++ [msg] ∧ msg.id = V2.staleTextChunkB.id ∧
        msg.role = Role.assistant :=
  ⟨claim_C1_amended_stale_guard.1 V1.sTrackedA V1.staleTextB "A" rfl
      (by decide) (by decide),
   claim_C1_amended_stale_guard.2.1 V1.sLoadingUntracked V1.errChunkA rfl,
   claim_C1_amended_stale_guard.2.2 V2.sPageA V2.staleTextChunkB (by decide) rfl⟩

/-- C4 counterexample: from the reachable state that is loading with no
tracked id yet (a submission whose first chunk has not arrived), a
not-clean close leaves isLoading true: the clearing in onclose is guarded
by a tracked assistant message id. -/
theorem claim_C4_counterexample :
    V1.evAbnormal.wasClean = false ∧
    V1.sLoadingUntracked.isLoading = true ∧
    V1.sLoadingUntracked.currentAssistantMessageId = none ∧
    (V1.onclose V1.sLoadingUntracked V1.evAbnormal).1.isLoading = true := by
  refine ⟨rfl, rfl, rfl, ?_⟩
  decide

/-- C4 amended: after an error chunk or an onerror event the client always
reaches the non-loading state with the tracked id cleared; after a close
event the same holds provided an assistant message id is tracked, while
with no tracked id the close handler leaves the loading flag unchanged. -/
theorem claim_C4_amended_nonloading :
    (∀ (s : V1.ClientState) (m : V1.WebSocketMessage),
      m.type = "error" →
      (V1.onmessage s m).isLoading = false ∧
      (V1.onmessage s m).currentAssistantMessageId = none) ∧
    (∀ s : V1.ClientState,
      (V1.onerror s).1.isLoading = false ∧
      (V1.onerror s).1.currentAssistantMessageId = none) ∧
    (∀ (s : V1.ClientState) (event : V1.CloseEvent) (a : String),
      s.currentAssistantMessageId = some a →
      (V1.onclose s event).1.isLoading = false ∧
      (V1.onclose s event).1.currentAssistantMessageId = none) := by
  refine ⟨?_, ?_, ?_⟩
  · intro s m htype
    rw [V1.onmessage_error s m htype]
    exact ⟨rfl, rfl⟩
  · intro s
    exact ⟨rfl, rfl⟩
  · intro s event a htrack
    by_cases hw : event.wasClean = false <;>
      simp [V1.onclose, htrack, hw]

/-- Witness for C4 amended at concrete tracked states. -/
theorem claim_C4_witness :
    ((V1.onmessage V1.sTrackedA V1.errChunkA).isLoading = false ∧
      (V1.onmessage V1.sTrackedA V1.errChunkA).currentAssistantMessageId = none) ∧
    ((V1.onerror V1.sTrackedA).1.isLoading = false ∧
      (V1.onerror V1.sTrackedA).1.currentAssistantMessageId = none) ∧
    ((V1.onclose V1.sTrackedA V1.evAbnormal).1.isLoading = false ∧
      (V1.onclose V1.sTrackedA V1.evAbnormal).1.currentAssistantMessageId = none) :=
  ⟨claim_C4_amended_nonloading.1 V1.sTrackedA V1.errChunkA rfl,
   claim_C4_amended_nonloading.2.1 V1.sTrackedA,
   claim_C4_amended_nonloading.2.2 V1.sTrackedA V1.evAbnormal "A" rfl⟩

/-- C5 counterexample: the first iteration processes an error chunk for
the tracked stream without marking any message record as errored: the
history is unchanged, EnhancedMessage having no error field at all; the
message is surfaced only in the page banner. -/
theorem claim_C5_counterexample :
    V1.sTrackedA.currentAssistantMessageId = some "A" ∧
    V1.errChunkA.type = "error" ∧
    (V1.onmessage V1.sTrackedA V1.errChunkA).messages = V1.sTrackedA.messages ∧
    (V1.onmessage V1.sTrackedA V1.errChunkA).currentError =
      some "Backend Error: boom" := by
  refine ⟨rfl, rfl, ?_, ?_⟩ <;> decide

/-- C5 amended: on an error chunk the second iteration marks the message
record as errored with the surfaced content, completes it, and goes idle
by clearing the thinking phase and the tracked ref; the first iteration
surfaces the error in the banner and clears the loading flag and tracked
id, but leaves the message history unmarked. -/
theorem claim_C5_amended_error_handling :
    (∀ (s : V2.PageState) (c : V2.WebSocketChunk) (msg0 : V2.HistoryMessage),
      c.type = "error" →
      s.messageHistory.find? (V2.histIdIs c.id) = some msg0 →
      (V2.processWebSocketChunk s c).thinkingPhase = none ∧
      (V2.processWebSocketChunk s c).currentAssistantMessageIdRef = none ∧
      (V2.processWebSocketChunk s c).messageHistory.find? (V2.histIdIs c.id) =
        some { msg0 with
          isError := true,
          errorContent := some (strOrElse c.content "An error occurred."),
          isComplete := true }) ∧
    (∀ (s : V1.ClientState) (m : V1.WebSocketMessage),
      m.type = "error" →
      (V1.onmessage s m).currentError =
          some ("Backend Error: " ++ tmplStr m.content) ∧
      (V1.onmessage s m).isLoading = false ∧
      (V1.onmessage s m).currentAssistantMessageId = none ∧
      (V1.onmessage s m).messages = s.messages) := by
  constructor
  · intro s c msg0 htype hfind
    rw [V2.processWebSocketChunk_error s c msg0 htype hfind]
    have h0 := List.find?_some hfind
    simp [V2.histIdIs] at h0
    refine ⟨rfl, rfl, ?_⟩
    exact listUpdFirst_find? hfind (by simp [V2.histIdIs, h0.1, h0.2])
  · intro s m htype
    rw [V1.onmessage_error s m htype]
    exact ⟨rfl, rfl, rfl, rfl⟩

/-- Witness for C5 amended at the tracked stream A of both iterations. -/
theorem claim_C5_witness :
    ((V2.processWebSocketChunk V2.sPageA V2.errorChunkA).thinkingPhase = none ∧
      (V2.processWebSocketChunk V2.sPageA V2.errorChunkA).currentAssistantMessageIdRef =
        none ∧
      (V2.processWebSocketChunk V2.sPageA V2.errorChunkA).messageHistory.find?
          (V2.histIdIs V2.errorChunkA.id) =
        some { ({ V2.newAssistantMessage "A" with text := some "partial" }) with
          isError := true,
          errorContent := some (strOrElse V2.errorChunkA.content "An error occurred."),
          isComplete := true }) ∧
    ((V1.onmessage V1.sTrackedA V1.errChunkA).currentError =
        some ("Backend Error: " ++ tmplStr V1.errChunkA.content) ∧
      (V1.onmessage V1.sTrackedA V1.errChunkA).isLoading = false ∧
      (V1.onmessage V1.sTrackedA V1.errChunkA).currentAssistantMessageId = none ∧
      (V1.onmessage V1.sTrackedA V1.errChunkA).messages = V1.sTrackedA.messages) :=
  ⟨claim_C5_amended_error_handling.1 V2.sPageA V2.errorChunkA
      { V2.newAssistantMessage "A" with text := some "partial" } rfl (by decide),
   claim_C5_amended_error_handling.2 V1.sTrackedA V1.errChunkA rfl⟩

/-- C7 counterexample: on a not-clean close the first-iteration handler
performs no external action at all: in particular it schedules no
reconnection attempt, refuting the automatic retry behaviour. -/
theorem claim_C7_counterexample :
    V1.evAbnormal.wasClean = false ∧
    (V1.onclose V1.sTrackedA V1.evAbnormal).2 = [] := by
  refine ⟨rfl, ?_⟩
  decide

/-- C7 amended: on an unexpected (not clean) transport closure the client
schedules no reconnection attempt and keeps no attempt counter or cap: the
close handler emits no effect, only drops the connection flag and surfaces
the connection-lost banner, leaving recovery to a manual page refresh. -/
theorem claim_C7_amended_no_reconnect :
    ∀ (s : V1.ClientState) (event : V1.CloseEvent),
      event.wasClean = false →
      (V1.onclose s event).2 = [] ∧
      (V1.onclose s event).1.isConnected = false ∧
      (V1.onclose s event).1.currentError =
        some "Connection lost. Please try refreshing." := by
  intro s event hw
  by_cases ht : s.currentAssistantMessageId.isSome <;>
    simp [V1.onclose, hw, ht]

/-- Witness for C7 amended at the abnormal close event. -/
theorem claim_C7_witness :
    (V1.onclose V1.sTrackedA V1.evAbnormal).2 = [] ∧
    (V1.onclose V1.sTrackedA V1.evAbnormal).1.isConnected = false ∧
    (V1.onclose V1.sTrackedA V1.evAbnormal).1.currentError =
      some "Connection lost. Please try refreshing." :=
  claim_C7_amended_no_reconnect V1.sTrackedA V1.evAbnormal rfl

/-- C8: for the tracked assistant message, a steps chunk with a payload
sets only the steps field of the message and a plot chunk with a payload
sets only the plotly_json field; its accumulated text, every other
message and the rest of the client state are unchanged, and a chunk with
a missing payload leaves the whole state unchanged. -/
theorem claim_C8_steps_plot_frame :
    ∀ (s : V1.ClientState) (m : V1.WebSocketMessage) (a : String)
      (msg0 : V1.EnhancedMessage),
      s.currentAssistantMessageId = some a →
      m.id = a →
      s.messages.find? (V1.msgIdIs a) = some msg0 →
      msg0.role = Role.assistant →
      ((∀ l, m.type = "steps" → m.steps = some l →
          (V1.onmessage s m).messages.find? (V1.msgIdIs a) =
              some { msg0 with steps := some l } ∧
          (V1.onmessage s m).messages.filter (fun msg => !V1.msgIdIs a msg) =
              s.messages.filter (fun msg => !V1.msgIdIs a msg) ∧
          (V1.onmessage s m).isLoading = s.isLoading ∧
          (V1.onmessage s m).currentAssistantMessageId =
              s.currentAssistantMessageId ∧
          (V1.onmessage s m).currentError = s.currentError) ∧
        (∀ pj, m.type = "plot" → m.plotly_json = some pj →
          (V1.onmessage s m).messages.find? (V1.msgIdIs a) =
              some { msg0 with plotly_json := some pj } ∧
          (V1.onmessage s m).messages.filter (fun msg => !V1.msgIdIs a msg) =
              s.messages.filter (fun msg => !V1.msgIdIs a msg) ∧
          (V1.onmessage s m).isLoading = s.isLoading ∧
          (V1.onmessage s m).currentAssistantMessageId =
              s.currentAssistantMessageId ∧
          (V1.onmessage s m).currentError = s.currentError) ∧
        (m.type = "steps" → m.steps = none → V1.onmessage s m = s) ∧
        (m.type = "plot" → m.plotly_json = none → V1.onmessage s m = s)) := by
  intro s m a msg0 htrack hid hfind hrole
  obtain ⟨mid, mrole, mtext, mplot, msteps⟩ := msg0
  simp only [V1.EnhancedMessage.mk.injEq] at hrole ⊢
  subst hrole
  have hmsgid : mid = a := by
    have h0 := List.find?_some hfind
    simpa [V1.msgIdIs] using h0
  refine ⟨?_, ?_, ?_, ?_⟩
  · intro l htype hpay
    rw [V1.onmessage_steps_step s m a _ l htrack hid htype hpay hfind]
    refine ⟨?_, ?_, rfl, rfl, rfl⟩
    · exact listUpdFirst_find? hfind (by simp [V1.msgIdIs, hmsgid])
    · exact listUpdFirst_filter_not (fun x hx => by
        simpa [V1.msgIdIs] using hx) s.messages
  · intro pj htype hpay
    rw [V1.onmessage_plot_step s m a _ pj htrack hid htype hpay hfind]
    refine ⟨?_, ?_, rfl, rfl, rfl⟩
    · exact listUpdFirst_find? hfind (by simp [V1.msgIdIs, hmsgid])
    · exact listUpdFirst_filter_not (fun x hx => by
        simpa [V1.msgIdIs] using hx) s.messages
  · intro htype hpay
    exact V1.onmessage_steps_missing s m a _ htrack hid htype hpay hfind
  · intro htype hpay
    exact V1.onmessage_plot_missing s m a _ htrack hid htype hpay hfind

/-- Witness for C8: the steps chunk for stream A sets the steps of its
tracked message and leaves the other messages untouched. -/
theorem claim_C8_witness :
    (V1.onmessage V1.sTrackedA V1.stepsChunkA).messages.find? (V1.msgIdIs "A") =
      some { id := "A", role := Role.assistant, text_content := some "partial",
             plotly_json := none,
             steps := some [{ id := "step-1", title := "Step 1: Apply power rule" }] } ∧
    (V1.onmessage V1.sTrackedA V1.stepsChunkA).messages.filter
        (fun msg => !V1.msgIdIs "A" msg) =
      V1.sTrackedA.messages.filter (fun msg => !V1.msgIdIs "A" msg) :=
  ⟨((claim_C8_steps_plot_frame V1.sTrackedA V1.stepsChunkA "A"
      { id := "A", role := Role.assistant, text_content := some "partial" }
      rfl rfl (by decide) rfl).1
      [{ id := "step-1", title := "Step 1: Apply power rule" }] rfl rfl).1,
   ((claim_C8_steps_plot_frame V1.sTrackedA V1.stepsChunkA "A"
      { id := "A", role := Role.assistant, text_content := some "partial" }
      rfl rfl (by decide) rfl).1
      [{ id := "step-1", title := "Step 1: Apply power rule" }] rfl rfl).2.1⟩

/-- C9: for each currentPhase among reasoning, steps and plotting, the
stepper marks exactly that phase active, every phase before it complete
and every phase after it upcoming; with currentPhase done all three phases
are complete and none is active. -/
theorem claim_C9_stepper_partition :
    ProgressStepper.order.map (ProgressStepper.getStatus ProgressStepper.Phase.reasoning) =
      ["active", "upcoming", "upcoming"] ∧
    ProgressStepper.order.map (ProgressStepper.getStatus ProgressStepper.Phase.steps) =
      ["complete", "active", "upcoming"] ∧
    ProgressStepper.order.map (ProgressStepper.getStatus ProgressStepper.Phase.plotting) =
      ["complete", "complete", "active"] ∧
    ProgressStepper.order.map (ProgressStepper.getStatus ProgressStepper.Phase.done) =
      ["complete", "complete", "complete"] := by
  decide

/-- C10: the theme toggle maps light to dark, dark to system and system to
light, hence applying it three times is the identity on every theme. -/
theorem claim_C10_theme_three_cycle :
    ThemeToggle.toggle ThemeToggle.Theme.light = ThemeToggle.Theme.dark ∧
    ThemeToggle.toggle ThemeToggle.Theme.dark = ThemeToggle.Theme.system ∧
    ThemeToggle.toggle ThemeToggle.Theme.system = ThemeToggle.Theme.light ∧
    ∀ t : ThemeToggle.Theme,
      ThemeToggle.toggle (ThemeToggle.toggle (ThemeToggle.toggle t)) = t := by
  refine ⟨rfl, rfl, rfl, ?_⟩
  intro t
  cases t <;> rfl
